import Mathlib

/-!
Shallow embedding of `flight_utils.py` (COMPASS-cookbook): reading airborne
flight netCDF files into tabular data at 1 Hz or 25 Hz.

Modelling conventions:
* numeric sample values are rationals (`ℚ`); the external numeric library's
  floating point is out of scope, NaN (missing) is the cell `Cell.nan`;
* a netCDF variable's payload is `NCData`: rank-1 data (`d1`), rank-2 data
  (`d2`, a list of rows), or `other` for an array whose rank is neither 1
  nor 2 (its contents are never inspected by the code);
* Python exceptions are the `PyErr` type; `Except PyErr` models a call that
  may raise; a per-variable `try`/`except` body is modelled by returning the
  list of dataframes appended before the exception together with the error;
* Python's `datetime` objects (external library) are modelled as a reference
  date string plus a rational seconds offset (`PyDateTime`); adding a
  `timedelta` adds to the offset;
* the file system is a function from path strings to optional datasets, and
  directory listings a function from paths to optional name lists (`none`
  models a missing file/directory).
-/

namespace FlightUtils

/-- A Python exception, by kind. -/
inductive PyErr where
  /-- `KeyError`: variable name absent from the dataset. -/
  | keyError (v : String)
  /-- `AttributeError`: `getattr` on a missing attribute. -/
  | attributeError
  /-- `ValueError`: e.g. `datetime.fromisoformat` parse failure, or
  `pd.DataFrame` on data that is not 1-dimensional. -/
  | valueError
  /-- `IndexError`: sequence index out of range. -/
  | indexError
  /-- `RuntimeError`: raised explicitly for unsupported variable rank. -/
  | runtimeError
  /-- The `ValueError` raised by `pd.concat` on an empty list of objects. -/
  | concatError
  /-- `FileNotFoundError`. -/
  | fileNotFound (p : String)
deriving DecidableEq, Repr

/-- Model of a Python `datetime`: the reference date (as the `YYYY-MM-DD`
character list) plus a rational offset in seconds from that date's UTC
midnight.  `⟨d, 0⟩` is UTC midnight of date `d`; adding a
`timedelta(seconds=s)` yields `⟨d, s⟩`. -/
structure PyDateTime where
  date : List Char
  secs : ℚ
deriving DecidableEq, Repr

/-- `datetime + timedelta(seconds=s)`. -/
def addSeconds (t : PyDateTime) (s : ℚ) : PyDateTime :=
  ⟨t.date, t.secs + s⟩

/-- Model of Python's `str.split(sep)` with an explicit one-character
separator: splits on every occurrence, keeping empty pieces. -/
def splitChar (sep : Char) : List Char → List (List Char)
  | [] => [[]]
  | c :: cs =>
    match splitChar sep cs with
    | [] => [[c]]
    | t :: ts => if c = sep then [] :: t :: ts else (c :: t) :: ts

/-- Is `s` a well-formed `YYYY-MM-DD` date literal (as accepted by
`datetime.fromisoformat`): ten characters, digits in the year, month and
day positions, dashes at positions 4 and 7, month in 1..12, day in 1..31. -/
def validDate (s : List Char) : Bool :=
  match s with
  | [y1, y2, y3, y4, c1, m1, m2, c2, d1, d2] =>
    y1.isDigit && y2.isDigit && y3.isDigit && y4.isDigit &&
    c1 = '-' && m1.isDigit && m2.isDigit && c2 = '-' &&
    d1.isDigit && d2.isDigit &&
    (1 ≤ (m1.toNat - 48) * 10 + (m2.toNat - 48) &&
     (m1.toNat - 48) * 10 + (m2.toNat - 48) ≤ 12) &&
    (1 ≤ (d1.toNat - 48) * 10 + (d2.toNat - 48) &&
     (d1.toNat - 48) * 10 + (d2.toNat - 48) ≤ 31)
  | _ => false

/-- Model of `datetime.fromisoformat` restricted to the strings this module
builds, which are always of the form `YYYY-MM-DDT00:00:00+0000`; a valid one
parses to UTC midnight of the date part, anything else raises `ValueError`. -/
def fromisoformat (s : List Char) : Except PyErr PyDateTime :=
  if validDate (s.take 10) ∧ s.drop 10 = "T00:00:00+0000".toList then
    .ok ⟨s.take 10, 0⟩
  else
    .error .valueError

/-- `sfm_to_datetime(sfm, tunits)`: convert seconds-from-midnight offsets to
datetimes.  Splits `tunits` on spaces, takes the first ten characters of the
third token as the date, glues on a literal `T00:00:00+0000` time-of-day, and
adds each offset to the parsed reference instant.  Raises `IndexError` when
`tunits` has fewer than three space-separated tokens and `ValueError` when
the rebuilt ISO string does not parse. -/
def sfm_to_datetime (sfm : List ℚ) (tunits : String) : Except PyErr (List PyDateTime) :=
  match (splitChar ' ' tunits.toList).get? 2 with
  | none => .error .indexError
  | some tok =>
    match fromisoformat (tok.take 10 ++ "T00:00:00+0000".toList) with
    | .error e => .error e
    | .ok t0 => .ok (sfm.map (fun s => addSeconds t0 s))

/-- The payload of one netCDF variable. -/
inductive NCData where
  /-- Rank-1 data: one value per second. -/
  | d1 (xs : List ℚ)
  /-- Rank-2 data: rows of sub-second samples (seconds × samples). -/
  | d2 (xs : List (List ℚ))
  /-- Data of some rank other than 1 or 2 (never inspected further). -/
  | other
deriving DecidableEq, Repr

/-- One netCDF variable: its name, payload, and optional `units` attribute. -/
structure NCVar where
  name : String
  data : NCData
  units : Option String := none
deriving DecidableEq, Repr

/-- An opened netCDF dataset: declared dimension names and variables. -/
structure Dataset where
  dims : List String
  vars : List NCVar
deriving DecidableEq, Repr

/-- `nc[v]`: look a variable up by name (`none` models `KeyError`). -/
def Dataset.getVar (nc : Dataset) (v : String) : Option NCVar :=
  nc.vars.find? (fun w => w.name == v)

deriving instance DecidableEq for Except

/-- One cell of the output table: a number, a missing value (NaN), or a
datetime. -/
inductive Cell where
  | num (q : ℚ)
  | nan
  | dt (t : PyDateTime)
deriving DecidableEq, Repr

/-- One named column of the output table (one single-variable DataFrame). -/
structure Column where
  name : String
  values : List Cell
deriving DecidableEq, Repr

/-- `sub_seconds = np.arange(0,25,1)/25`. -/
def sub_seconds : List ℚ :=
  (List.range 25).map (fun (k : Nat) => (k : ℚ) / 25)

/-- The flattened 25 Hz time axis.  The code fills the columns of an
`N × 25` array with `time + i/25` and ravels row-major, so the flattened
entry at `j*25 + i` is `time[j] + i/25`: row `j` of the grid is
`sub_seconds.map (t j + ·)`. -/
def time25 (time : List ℚ) : List ℚ :=
  (time.map (fun t => sub_seconds.map (fun inc => t + inc))).flatten

/-- 25 Hz linear upsampling of a rank-1 variable `v`.  The code starts from
an all-NaN `N × 25` array and, for each `i` with `i+1 < N`, overwrites row
`i` with `v[i] + sub_seconds * (v[i+1] - v[i])`; rows never written (the
last row, when `N ≥ 1`) stay NaN; the array is then raveled row-major. -/
def interp25 (v : List ℚ) : List Cell :=
  ((List.range v.length).map (fun i =>
    if i + 1 < v.length then
      sub_seconds.map (fun ss => Cell.num (v.getD i 0 + ss * (v.getD (i + 1) 0 - v.getD i 0)))
    else
      List.replicate 25 Cell.nan)).flatten

/-- The body of the 25 Hz reader's per-variable `try`: returns the list of
single-variable DataFrames appended to `data` before control left the body,
and the exception that was raised, if any (the caller's `except` swallows
it).  Note the `Time` branch appends the raw `Time` frame *before* calling
`sfm_to_datetime`, so a units-parse failure leaves the `Time` frame in
`data` while dropping `datetime`. -/
def readVar25 (nc : Dataset) (var : String) : List Column × Option PyErr :=
  if var = "Time" then
    match nc.getVar var with
    | none => ([], some (.keyError var))
    | some w =>
      match w.units with
      | none => ([], some .attributeError)
      | some tunits =>
        match w.data with
        | .d1 time =>
          match sfm_to_datetime (time25 time) tunits with
          | .error e => ([⟨var, (time25 time).map Cell.num⟩], some e)
          | .ok dts =>
            ([⟨var, (time25 time).map Cell.num⟩, ⟨"datetime", dts.map Cell.dt⟩], none)
        | _ =>
          ([], some .valueError)
  else
    match nc.getVar var with
    | none => ([], some (.keyError var))
    | some w =>
      match w.data with
      | .d2 rows => ([⟨var, rows.flatten.map Cell.num⟩], none)
      | .d1 v => ([⟨var, interp25 v⟩], none)
      | .other => ([], some .runtimeError)

/-- `read_flight_nc_25hz`: run the per-variable body for each requested
variable, swallowing per-variable exceptions, then `pd.concat` the
accumulated frames (which raises when the list is empty). -/
def read_flight_nc_25hz (nc : Dataset) (read_vars : List String) : Except PyErr (List Column) :=
  if ((read_vars.map (fun v => (readVar25 nc v).1)).flatten) = [] then
    .error .concatError
  else
    .ok ((read_vars.map (fun v => (readVar25 nc v).1)).flatten)

/-- The body of the 1 Hz reader's per-variable `try`, with the same
convention as `readVar25`.  A non-`Time` variable is copied verbatim;
`pd.DataFrame({var: x})` raises `ValueError` when `x` is not
1-dimensional. -/
def readVar1 (nc : Dataset) (var : String) : List Column × Option PyErr :=
  if var = "Time" then
    match nc.getVar var with
    | none => ([], some (.keyError var))
    | some w =>
      match w.units with
      | none => ([], some .attributeError)
      | some tunits =>
        match w.data with
        | .d1 time =>
          match sfm_to_datetime time tunits with
          | .error e => ([⟨var, time.map Cell.num⟩], some e)
          | .ok dts => ([⟨var, time.map Cell.num⟩, ⟨"datetime", dts.map Cell.dt⟩], none)
        | _ =>
          ([], some .valueError)
  else
    match nc.getVar var with
    | none => ([], some (.keyError var))
    | some w =>
      match w.data with
      | .d1 v => ([⟨var, v.map Cell.num⟩], none)
      | _ => ([], some .valueError)

/-- `read_flight_nc_1hz`: per-variable reads with swallowed exceptions,
then `pd.concat` (raising on an empty list). -/
def read_flight_nc_1hz (nc : Dataset) (read_vars : List String) : Except PyErr (List Column) :=
  if ((read_vars.map (fun v => (readVar1 nc v).1)).flatten) = [] then
    .error .concatError
  else
    .ok ((read_vars.map (fun v => (readVar1 nc v).1)).flatten)

/-- `read_flight_nc`: rate dispatch on the presence of the `sps25`
dimension name. -/
def read_flight_nc (nc : Dataset) (read_vars : List String) : Except PyErr (List Column) :=
  if "sps25" ∈ nc.dims then
    read_flight_nc_25hz nc read_vars
  else
    read_flight_nc_1hz nc read_vars

/-- The file system, as seen through `pathlib.Path.is_file` plus
`netCDF4.Dataset`: a path either names an openable dataset or nothing. -/
def FileSystem : Type :=
  String → Option Dataset

/-- `open_flight_nc`: raise `FileNotFoundError` when the path names no
file, otherwise open and return the dataset. -/
def open_flight_nc (fs : FileSystem) (file_path : String) : Except PyErr Dataset :=
  match fs file_path with
  | none => .error (.fileNotFound file_path)
  | some nc => .ok nc

/-- The attributes a `flight_obj` holds after `__init__` succeeds. -/
structure FlightObj where
  file_path : String
  read_vars_attempted : List String
  nc : Dataset
  df : List Column
  rate : String
  read_vars : List String
deriving DecidableEq, Repr

/-- `flight_obj.__init__`: raise `FileNotFoundError` when the path names no
file; otherwise open the dataset, dispatch on the `sps25` dimension to the
25 Hz or 1 Hz reader, tag the rate, and record the columns actually read
(`list(self.df.keys())`). -/
def flight_obj_init (fs : FileSystem) (file_path : String) (read_vars : List String) :
    Except PyErr FlightObj :=
  match fs file_path with
  | none => .error (.fileNotFound file_path)
  | some nc =>
    if "sps25" ∈ nc.dims then
      match read_flight_nc_25hz nc read_vars with
      | .error e => .error e
      | .ok df => .ok ⟨file_path, read_vars, nc, df, "25Hz", df.map Column.name⟩
    else
      match read_flight_nc_1hz nc read_vars with
      | .error e => .error e
      | .ok df => .ok ⟨file_path, read_vars, nc, df, "1Hz", df.map Column.name⟩

/-- Directory listings: a directory path either lists its entries (in
unspecified order, as `os.listdir`) or does not exist (`none`), in which
case `os.listdir` raises `FileNotFoundError`. -/
def DirListing : Type :=
  String → Option (List String)

/-- Does a file name match the `*.nc` pattern (as `fnmatch` on POSIX):
does it end with the three characters `.nc`? -/
def matches_nc (fname : String) : Bool :=
  (3 ≤ fname.toList.length) &&
    (fname.toList.drop (fname.toList.length - 3) == ".nc".toList)

/-- `find_flight_fnames`: `sorted([f for f in os.listdir(dir_path) if
fnmatch(f, "*.nc")])`.  Raises `FileNotFoundError` (from `os.listdir`)
when the directory does not exist. -/
def find_flight_fnames (dirs : DirListing) (dir_path : String) : Except PyErr (List String) :=
  match dirs dir_path with
  | none => .error (.fileNotFound dir_path)
  | some names => .ok (List.insertionSort (· ≤ ·) (names.filter matches_nc))

/-- The file system as the scanner sees it: directory listings plus file
contents. -/
structure ScanFS where
  dirs : DirListing
  files : FileSystem

/-- The inner loop of `read_all_flights`: open and read each file of one
campaign directory in turn, building the per-file mapping (a Python dict in
insertion order, modelled as an association list).  Any exception from
`open_flight_nc` or `read_flight_nc` propagates. -/
def readFlightDict (fs : ScanFS) (campaign_dir : String) (read_vars : List String) :
    List String → Except PyErr (List (String × List Column))
  | [] => .ok []
  | fname :: rest => do
    let nc ← open_flight_nc fs.files (campaign_dir ++ "/" ++ fname)
    let df ← read_flight_nc nc read_vars
    let tail ← readFlightDict fs campaign_dir read_vars rest
    return (fname, df) :: tail

/-- `read_all_flights`: for each campaign, list `<data_dir>/<campaign>/lrt`,
read every matching file, and collect campaign → file → table.  Nothing is
caught here: a failing directory listing or a failing read aborts the whole
scan. -/
def read_all_flights (fs : ScanFS) (data_dir : String) (read_vars : List String) :
    List String → Except PyErr (List (String × List (String × List Column)))
  | [] => .ok []
  | campaign :: rest => do
    let campaign_dir := data_dir ++ "/" ++ campaign ++ "/lrt"
    let flight_fnames ← find_flight_fnames fs.dirs campaign_dir
    let flight_dict ← readFlightDict fs campaign_dir read_vars flight_fnames
    let tail ← read_all_flights fs data_dir read_vars rest
    return (campaign, flight_dict) :: tail

/-! ## General helper lemmas -/

theorem splitChar_ne_nil (sep : Char) (l : List Char) : splitChar sep l ≠ [] := by
  cases l with
  | nil => simp [splitChar]
  | cons c cs =>
    simp only [splitChar]
    cases splitChar sep cs with
    | nil => simp
    | cons t ts =>
      by_cases h : c = sep <;> simp [h]

theorem splitChar_append (sep : Char) (xs ys : List Char) (hx : ∀ c ∈ xs, c ≠ sep) :
    splitChar sep (xs ++ sep :: ys) = xs :: splitChar sep ys := by
  induction xs with
  | nil =>
    simp only [List.nil_append, splitChar]
    cases h : splitChar sep ys with
    | nil => exact absurd h (splitChar_ne_nil sep ys)
    | cons t ts => simp
  | cons x xs ih =>
    have hx' : ∀ c ∈ xs, c ≠ sep := fun c hc => hx c (List.mem_cons_of_mem x hc)
    have hxs : x ≠ sep := hx x (List.mem_cons_self x xs)
    simp only [List.cons_append, splitChar, List.append_eq]
    rw [ih hx']
    simp [hxs]

theorem flatten_length_const {α : Type} (L : List (List α)) (m : Nat)
    (h : ∀ r ∈ L, r.length = m) : L.flatten.length = L.length * m := by
  induction L with
  | nil => simp
  | cons r rs ih =>
    have hr : r.length = m := h r (List.mem_cons_self r rs)
    have hrs : ∀ r ∈ rs, r.length = m := fun r hmem => h r (List.mem_cons_of_mem _ hmem)
    simp [ih hrs, hr, Nat.succ_mul, Nat.add_comm]

theorem flatten_getElem_const {α : Type} (L : List (List α)) (m i k : Nat)
    (h : ∀ r ∈ L, r.length = m) (hi : i < L.length) (hk : k < m) :
    L.flatten[i * m + k]? = (L.getD i [])[k]? := by
  induction L generalizing i with
  | nil => simp at hi
  | cons r rs ih =>
    have hr : r.length = m := h r (List.mem_cons_self r rs)
    have hrs : ∀ r ∈ rs, r.length = m := fun r hmem => h r (List.mem_cons_of_mem _ hmem)
    cases i with
    | zero =>
      have hk' : k < r.length := by omega
      simp [List.getElem?_append_left hk']
    | succ i =>
      have hlen : r.length ≤ (i + 1) * m + k := by
        have : (i + 1) * m + k = m + (i * m + k) := by ring
        omega
      have hsub : (i + 1) * m + k - r.length = i * m + k := by
        have : (i + 1) * m + k = m + (i * m + k) := by ring
        omega
      rw [List.flatten_cons, List.getElem?_append_right hlen, hsub]
      exact ih i hrs (by simpa using hi)

theorem char_isDigit_ne_space (c : Char) (h : c.isDigit = true) : c ≠ ' ' := by
  intro he
  subst he
  exact absurd h (by decide)

theorem validDate_shape (s : List Char) (h : validDate s = true) :
    s.length = 10 ∧ ∀ c ∈ s, c ≠ ' ' := by
  match s, h with
  | [y1, y2, y3, y4, c1, m1, m2, c2, d1, d2], h =>
    simp only [validDate, Bool.and_eq_true, decide_eq_true_eq, and_assoc] at h
    obtain ⟨hy1, hy2, hy3, hy4, hc1, hm1, hm2, hc2, hd1, hd2, -⟩ := h
    refine ⟨rfl, ?_⟩
    intro c hc
    simp only [List.mem_cons, List.not_mem_nil, or_false] at hc
    rcases hc with rfl | rfl | rfl | rfl | rfl | rfl | rfl | rfl | rfl | rfl
    · exact char_isDigit_ne_space _ hy1
    · exact char_isDigit_ne_space _ hy2
    · exact char_isDigit_ne_space _ hy3
    · exact char_isDigit_ne_space _ hy4
    · rw [hc1]; decide
    · exact char_isDigit_ne_space _ hm1
    · exact char_isDigit_ne_space _ hm2
    · rw [hc2]; decide
    · exact char_isDigit_ne_space _ hd1
    · exact char_isDigit_ne_space _ hd2

theorem sfm_to_datetime_length (sfm : List ℚ) (tunits : String) (r : List PyDateTime)
    (h : sfm_to_datetime sfm tunits = .ok r) : r.length = sfm.length := by
  unfold sfm_to_datetime at h
  split at h
  · simp at h
  · split at h
    · simp at h
    · simp only [Except.ok.injEq] at h
      subst h
      simp

theorem map_getD_of_lt {α β : Type} (f : α → β) (l : List α) (i : Nat) (d : α) (db : β)
    (hi : i < l.length) : (l.map f).getD i db = f (l.getD i d) := by
  rw [List.getD_eq_getElem (l.map f) db (by simpa using hi), List.getElem_map f,
    List.getD_eq_getElem l d hi]

theorem range_map_getD {β : Type} (g : Nat → β) (n i : Nat) (db : β) (hi : i < n) :
    ((List.range n).map g).getD i db = g i := by
  rw [map_getD_of_lt g (List.range n) i 0 db (by simpa using hi)]
  congr 1
  rw [List.getD_eq_getElem (List.range n) 0 (by simpa using hi)]
  exact List.getElem_range i _

theorem sub_seconds_length : sub_seconds.length = 25 := by
  decide

theorem sub_seconds_getElem (k : Nat) (hk : k < 25) :
    sub_seconds[k]? = some ((k : ℚ) / 25) := by
  unfold sub_seconds
  rw [List.getElem?_map, List.getElem?_range hk]
  rfl

theorem time25_row_lengths (t : List ℚ) :
    ∀ r ∈ t.map (fun x => sub_seconds.map (fun inc => x + inc)), r.length = 25 := by
  intro r hr
  simp only [List.mem_map] at hr
  obtain ⟨x, -, rfl⟩ := hr
  simp [sub_seconds_length]

theorem time25_length (t : List ℚ) : (time25 t).length = t.length * 25 := by
  unfold time25
  rw [flatten_length_const _ 25 (time25_row_lengths t)]
  simp

theorem time25_getElem (t : List ℚ) (i k : Nat) (hi : i < t.length) (hk : k < 25) :
    (time25 t)[i * 25 + k]? = some (t.getD i 0 + (k : ℚ) / 25) := by
  unfold time25
  rw [flatten_getElem_const _ 25 i k (time25_row_lengths t) (by simpa using hi) hk]
  rw [map_getD_of_lt _ t i 0 [] hi, List.getElem?_map, sub_seconds_getElem k hk]
  rfl

theorem interp25_row_lengths (v : List ℚ) :
    ∀ r ∈ (List.range v.length).map (fun i =>
      if i + 1 < v.length then
        sub_seconds.map (fun ss => Cell.num (v.getD i 0 + ss * (v.getD (i + 1) 0 - v.getD i 0)))
      else
        List.replicate 25 Cell.nan), r.length = 25 := by
  intro r hr
  simp only [List.mem_map] at hr
  obtain ⟨x, -, rfl⟩ := hr
  by_cases h : x + 1 < v.length <;> simp [h, sub_seconds_length]

theorem interp25_length (v : List ℚ) : (interp25 v).length = v.length * 25 := by
  unfold interp25
  rw [flatten_length_const _ 25 (interp25_row_lengths v)]
  simp

theorem interp25_getElem_mid (v : List ℚ) (i k : Nat) (hi : i + 1 < v.length) (hk : k < 25) :
    (interp25 v)[i * 25 + k]? =
      some (Cell.num (v.getD i 0 + ((k : ℚ) / 25) * (v.getD (i + 1) 0 - v.getD i 0))) := by
  unfold interp25
  have hi' : i < v.length := by omega
  rw [flatten_getElem_const _ 25 i k (interp25_row_lengths v) (by simpa using hi') hk]
  rw [range_map_getD _ v.length i [] hi', if_pos hi, List.getElem?_map,
    sub_seconds_getElem k hk]
  rfl

theorem interp25_getElem_last (v : List ℚ) (k : Nat) (hk : k < 25) (h0 : 0 < v.length) :
    (interp25 v)[(v.length - 1) * 25 + k]? = some Cell.nan := by
  unfold interp25
  have hi' : v.length - 1 < v.length := by omega
  have hnotlt : ¬ (v.length - 1 + 1 < v.length) := by omega
  rw [flatten_getElem_const _ 25 (v.length - 1) k (interp25_row_lengths v)
    (by simpa using hi') hk]
  rw [range_map_getD _ v.length (v.length - 1) [] hi', if_neg hnotlt,
    List.getElem?_replicate_of_lt hk]

/-! ## C3: time reconstruction -/

/-- C3: for every offset sequence and every units string of the form
`seconds since YYYY-MM-DD <anything>` (in particular the canonical
`seconds since YYYY-MM-DD 00:00:00 +0000`), `sfm_to_datetime` returns a
list of the same length as the offsets whose `j`-th element is UTC midnight
of the date plus `offsets[j]` seconds; the time-of-day/timezone text after
the date token is ignored. -/
theorem C3_sfm_reconstructs_midnight (sfm : List ℚ) (d tod : List Char)
    (hd : validDate d = true) :
    sfm_to_datetime sfm (String.mk ("seconds since ".toList ++ (d ++ ' ' :: tod)))
      = .ok (sfm.map (fun s => addSeconds ⟨d, 0⟩ s)) ∧
    (sfm.map (fun s => addSeconds ⟨d, 0⟩ s)).length = sfm.length := by
  obtain ⟨hlen, hns⟩ := validDate_shape d hd
  refine ⟨?_, by simp⟩
  have hsplit : splitChar ' ' (String.mk ("seconds since ".toList ++ (d ++ ' ' :: tod))).toList
      = "seconds".toList :: "since".toList :: d :: splitChar ' ' tod := by
    show splitChar ' ' ("seconds".toList ++ ' ' :: ("since".toList ++ ' ' :: (d ++ ' ' :: tod)))
        = "seconds".toList :: "since".toList :: d :: splitChar ' ' tod
    rw [splitChar_append ' ' _ _ (by decide), splitChar_append ' ' _ _ (by decide),
      splitChar_append ' ' _ _ hns]
  have htake : d.take 10 = d := by
    conv_lhs => rw [← hlen]
    exact List.take_length d
  have harg : fromisoformat (d.take 10 ++ "T00:00:00+0000".toList)
      = .ok ⟨d, 0⟩ := by
    rw [htake]
    unfold fromisoformat
    rw [if_pos ⟨by rw [List.take_left' hlen]; exact hd, List.drop_left' hlen⟩,
      List.take_left' hlen]
  have harg' : fromisoformat (d.take 10 ++
      ['T', '0', '0', ':', '0', '0', ':', '0', '0', '+', '0', '0', '0', '0'])
      = .ok ⟨d, 0⟩ := harg
  unfold sfm_to_datetime
  rw [hsplit]
  simp [harg, harg']

/-- Witness for C3 at a concrete offset list and the canonical units
string. -/
theorem C3_witness :
    sfm_to_datetime [0, 3600, 1/2]
        (String.mk ("seconds since ".toList ++ ("2020-01-02".toList ++ ' ' :: "00:00:00 +0000".toList)))
      = .ok ([0, 3600, 1/2].map (fun s => addSeconds ⟨"2020-01-02".toList, 0⟩ s)) ∧
    (([0, 3600, 1/2] : List ℚ).map (fun s => addSeconds ⟨"2020-01-02".toList, 0⟩ s)).length
      = ([0, 3600, 1/2] : List ℚ).length :=
  C3_sfm_reconstructs_midnight [0, 3600, 1/2] "2020-01-02".toList "00:00:00 +0000".toList
    (by decide)

/-! ## C1: 25 Hz upsampling of rank-1 variables -/

/-- C1: in the 25 Hz reader, a requested non-`Time` variable of native rank 1
with values `v` of length `N` yields the single column `interp25 v` of length
`N*25`; for `0 ≤ i < N-1` and `k < 25` the entry at `i*25+k` is
`v[i] + (k/25)·(v[i+1] − v[i])`, and all 25 entries of the final second are
NaN. -/
theorem C1_rank1_upsampling (nc : Dataset) (var : String) (w : NCVar) (v : List ℚ)
    (hvar : var ≠ "Time") (hget : nc.getVar var = some w) (hdata : w.data = .d1 v) :
    readVar25 nc var = ([⟨var, interp25 v⟩], none) ∧
    (interp25 v).length = v.length * 25 ∧
    (∀ i k : Nat, i + 1 < v.length → k < 25 →
      (interp25 v)[i * 25 + k]? =
        some (Cell.num (v.getD i 0 + ((k : ℚ) / 25) * (v.getD (i + 1) 0 - v.getD i 0)))) ∧
    (∀ k : Nat, k < 25 → 0 < v.length →
      (interp25 v)[(v.length - 1) * 25 + k]? = some Cell.nan) := by
  refine ⟨?_, interp25_length v, fun i k hi hk => interp25_getElem_mid v i k hi hk,
    fun k hk h0 => interp25_getElem_last v k hk h0⟩
  simp only [readVar25, if_neg hvar, hget, hdata]

/-- Witness for C1 on a concrete two-second dataset. -/
theorem C1_witness :
    readVar25 ⟨["sps25"], [⟨"GGALT", NCData.d1 [100, 200], none⟩]⟩ "GGALT"
      = ([⟨"GGALT", interp25 [100, 200]⟩], none) ∧
    (interp25 [(100 : ℚ), 200]).length = ([(100 : ℚ), 200]).length * 25 ∧
    (interp25 [(100 : ℚ), 200])[0 * 25 + 3]? =
      some (Cell.num (([(100 : ℚ), 200]).getD 0 0 +
        ((3 : ℚ) / 25) * (([(100 : ℚ), 200]).getD (0 + 1) 0 - ([(100 : ℚ), 200]).getD 0 0))) ∧
    (interp25 [(100 : ℚ), 200])[(([(100 : ℚ), 200]).length - 1) * 25 + 3]? = some Cell.nan := by
  obtain ⟨h1, h2, h3, h4⟩ := C1_rank1_upsampling
    ⟨["sps25"], [⟨"GGALT", NCData.d1 [100, 200], none⟩]⟩ "GGALT"
    ⟨"GGALT", NCData.d1 [100, 200], none⟩ [100, 200] (by decide) (by decide) rfl
  exact ⟨h1, h2, h3 0 3 (by decide) (by decide), h4 3 (by decide) (by decide)⟩

/-! ## C2: the 25 Hz time axis -/

/-- C2: in the 25 Hz reader, requesting `Time` with once-per-second offsets
`t` of length `N` produces a raw `Time` column of length `N*25` whose entry
at `i*25+k` is `t[i] + k/25` (row-major flattening of the seconds × 25
grid), and a `datetime` column of the same length obtained by applying
`sfm_to_datetime` to exactly these flattened values. -/
theorem C2_time_axis (nc : Dataset) (w : NCVar) (t : List ℚ) (tunits : String)
    (dts : List PyDateTime) (hget : nc.getVar "Time" = some w)
    (hunits : w.units = some tunits) (hdata : w.data = .d1 t)
    (hsfm : sfm_to_datetime (time25 t) tunits = .ok dts) :
    readVar25 nc "Time"
      = ([⟨"Time", (time25 t).map Cell.num⟩, ⟨"datetime", dts.map Cell.dt⟩], none) ∧
    (time25 t).length = t.length * 25 ∧
    (∀ i k : Nat, i < t.length → k < 25 →
      (time25 t)[i * 25 + k]? = some (t.getD i 0 + (k : ℚ) / 25)) ∧
    dts.length = t.length * 25 := by
  refine ⟨?_, time25_length t, fun i k hi hk => time25_getElem t i k hi hk, ?_⟩
  · simp [readVar25, hget, hunits, hdata, hsfm]
  · rw [sfm_to_datetime_length (time25 t) tunits dts hsfm, time25_length t]

/-- Witness for C2 on a concrete two-second dataset with the canonical
units string. -/
theorem C2_witness :
    readVar25 ⟨["sps25"],
        [⟨"Time", NCData.d1 [10, 11], some "seconds since 2020-01-02 00:00:00 +0000"⟩]⟩ "Time"
      = ([⟨"Time", (time25 [10, 11]).map Cell.num⟩,
          ⟨"datetime", ((time25 [10, 11]).map
            (fun s => addSeconds ⟨"2020-01-02".toList, 0⟩ s)).map Cell.dt⟩], none) ∧
    (time25 [(10 : ℚ), 11]).length = ([(10 : ℚ), 11]).length * 25 ∧
    (time25 [(10 : ℚ), 11])[1 * 25 + 7]? = some (([(10 : ℚ), 11]).getD 1 0 + (7 : ℚ) / 25) ∧
    ((time25 [(10 : ℚ), 11]).map (fun s => addSeconds ⟨"2020-01-02".toList, 0⟩ s)).length
      = ([(10 : ℚ), 11]).length * 25 := by
  obtain ⟨h1, h2, h3, h4⟩ := C2_time_axis
    ⟨["sps25"],
      [⟨"Time", NCData.d1 [10, 11], some "seconds since 2020-01-02 00:00:00 +0000"⟩]⟩
    ⟨"Time", NCData.d1 [10, 11], some "seconds since 2020-01-02 00:00:00 +0000"⟩
    [10, 11] "seconds since 2020-01-02 00:00:00 +0000"
    ((time25 [10, 11]).map (fun s => addSeconds ⟨"2020-01-02".toList, 0⟩ s))
    (by decide) rfl rfl rfl
  exact ⟨h1, h2, h3 1 7 (by decide) (by decide), h4⟩

/-! ## C5: 25 Hz rank-2 variables are flattened row-major -/

/-- C5: a requested non-`Time` variable of native rank 2 and shape (N, 25)
is copied to a single column of exactly `N*25` values in row-major order
(second-major, sub-second-minor), with no interpolation: the flattened
entry at `i*25+k` is row `i`, element `k` of the stored grid. -/
theorem C5_rank2_flatten (nc : Dataset) (var : String) (w : NCVar) (rows : List (List ℚ))
    (hvar : var ≠ "Time") (hget : nc.getVar var = some w) (hdata : w.data = .d2 rows)
    (hshape : ∀ r ∈ rows, r.length = 25) :
    readVar25 nc var = ([⟨var, rows.flatten.map Cell.num⟩], none) ∧
    (rows.flatten.map Cell.num).length = rows.length * 25 ∧
    (∀ i k : Nat, i < rows.length → k < 25 →
      rows.flatten[i * 25 + k]? = (rows.getD i [])[k]?) := by
  refine ⟨?_, ?_, fun i k hi hk => flatten_getElem_const rows 25 i k hshape hi hk⟩
  · simp only [readVar25, if_neg hvar, hget, hdata]
  · rw [List.length_map, flatten_length_const rows 25 hshape]

/-- Witness for C5 on a concrete (2, 25) dataset. -/
theorem C5_witness :
    readVar25 ⟨["sps25"],
        [⟨"UIC", NCData.d2 [List.replicate 25 7, List.replicate 25 8], none⟩]⟩ "UIC"
      = ([⟨"UIC", ([List.replicate 25 (7 : ℚ), List.replicate 25 8]).flatten.map Cell.num⟩],
          none) ∧
    (([List.replicate 25 (7 : ℚ), List.replicate 25 8]).flatten.map Cell.num).length
      = ([List.replicate 25 (7 : ℚ), List.replicate 25 8]).length * 25 ∧
    ([List.replicate 25 (7 : ℚ), List.replicate 25 8]).flatten[1 * 25 + 4]?
      = (([List.replicate 25 (7 : ℚ), List.replicate 25 8]).getD 1 [])[4]? := by
  obtain ⟨h1, h2, h3⟩ := C5_rank2_flatten
    ⟨["sps25"], [⟨"UIC", NCData.d2 [List.replicate 25 7, List.replicate 25 8], none⟩]⟩
    "UIC" ⟨"UIC", NCData.d2 [List.replicate 25 7, List.replicate 25 8], none⟩
    [List.replicate 25 7, List.replicate 25 8] (by decide) (by decide) rfl (by decide)
  exact ⟨h1, h2, h3 1 4 (by decide) (by decide)⟩

/-! ## C4: rate dispatch -/

/-- C4: the rate dispatch selects the 25 Hz reader exactly when the opened
file's dimension names contain `sps25`, otherwise the 1 Hz reader; a
successfully constructed flight record is tagged `25Hz`/`1Hz`
accordingly. -/
theorem C4_rate_dispatch (nc : Dataset) (rv : List String) (fs : FileSystem) (p : String)
    (obj : FlightObj) :
    ("sps25" ∈ nc.dims → read_flight_nc nc rv = read_flight_nc_25hz nc rv) ∧
    ("sps25" ∉ nc.dims → read_flight_nc nc rv = read_flight_nc_1hz nc rv) ∧
    (flight_obj_init fs p rv = .ok obj →
      obj.rate = if "sps25" ∈ obj.nc.dims then "25Hz" else "1Hz") := by
  refine ⟨fun h => by simp [read_flight_nc, h], fun h => by simp [read_flight_nc, h], ?_⟩
  intro hinit
  unfold flight_obj_init at hinit
  split at hinit
  · simp at hinit
  · split at hinit
    · split at hinit
      · simp at hinit
      · simp only [Except.ok.injEq] at hinit
        subst hinit
        simp [*]
    · split at hinit
      · simp at hinit
      · simp only [Except.ok.injEq] at hinit
        subst hinit
        simp [*]

/-- Witness for C4 at concrete 25 Hz and 1 Hz datasets. -/
theorem C4_witness :
    read_flight_nc ⟨["sps25"], [⟨"A", NCData.d1 [], none⟩]⟩ ["A"]
      = read_flight_nc_25hz ⟨["sps25"], [⟨"A", NCData.d1 [], none⟩]⟩ ["A"] ∧
    read_flight_nc ⟨["time"], [⟨"A", NCData.d1 [], none⟩]⟩ ["A"]
      = read_flight_nc_1hz ⟨["time"], [⟨"A", NCData.d1 [], none⟩]⟩ ["A"] ∧
    (⟨"f.nc", ["A"], ⟨["sps25"], [⟨"A", NCData.d1 [], none⟩]⟩, [⟨"A", []⟩],
        "25Hz", ["A"]⟩ : FlightObj).rate
      = if "sps25" ∈ (⟨"f.nc", ["A"], ⟨["sps25"], [⟨"A", NCData.d1 [], none⟩]⟩, [⟨"A", []⟩],
          "25Hz", ["A"]⟩ : FlightObj).nc.dims then "25Hz" else "1Hz" :=
  ⟨(C4_rate_dispatch ⟨["sps25"], [⟨"A", NCData.d1 [], none⟩]⟩ ["A"] (fun _ => none) ""
      ⟨"", [], ⟨[], []⟩, [], "", []⟩).1 (by decide),
   (C4_rate_dispatch ⟨["time"], [⟨"A", NCData.d1 [], none⟩]⟩ ["A"] (fun _ => none) ""
      ⟨"", [], ⟨[], []⟩, [], "", []⟩).2.1 (by decide),
   (C4_rate_dispatch ⟨[], []⟩ ["A"]
      (fun _ => some ⟨["sps25"], [⟨"A", NCData.d1 [], none⟩]⟩) "f.nc"
      ⟨"f.nc", ["A"], ⟨["sps25"], [⟨"A", NCData.d1 [], none⟩]⟩, [⟨"A", []⟩],
        "25Hz", ["A"]⟩).2.2 (by decide)⟩

/-! ## C8: missing files fail fast -/

/-- C8: for a path naming no existing file, both `open_flight_nc` and the
`flight_obj` constructor raise the distinguishable `FileNotFoundError` and
produce no dataset/record; for an existing file `open_flight_nc` opens
it. -/
theorem C8_file_not_found (fs : FileSystem) (p : String) (rv : List String) :
    (fs p = none →
      open_flight_nc fs p = .error (.fileNotFound p) ∧
      flight_obj_init fs p rv = .error (.fileNotFound p)) ∧
    (∀ nc, fs p = some nc → open_flight_nc fs p = .ok nc) := by
  constructor
  · intro h
    constructor
    · unfold open_flight_nc
      rw [h]
    · unfold flight_obj_init
      rw [h]
  · intro nc h
    unfold open_flight_nc
    rw [h]

/-- Witness for C8 on a concrete empty file system and a concrete file. -/
theorem C8_witness :
    open_flight_nc (fun _ => none) "missing.nc" = .error (.fileNotFound "missing.nc") ∧
    flight_obj_init (fun _ => none) "missing.nc" [] = .error (.fileNotFound "missing.nc") ∧
    open_flight_nc (fun _ => some ⟨[], []⟩) "f.nc" = .ok ⟨[], []⟩ :=
  ⟨((C8_file_not_found (fun _ => none) "missing.nc" []).1 rfl).1,
   ((C8_file_not_found (fun _ => none) "missing.nc" []).1 rfl).2,
   (C8_file_not_found (fun _ => some ⟨[], []⟩) "f.nc" []).2 ⟨[], []⟩ rfl⟩

/-! ## C6: per-variable failures are swallowed -/

/-- C6 counterexample: with `Time` present but carrying an unparseable
`units` string, the per-variable transformation fails (an `IndexError` is
raised and swallowed), yet the raw `Time` column is NOT omitted from the
output — the failing variable is not "entirely omitted" as claimed. -/
theorem C6_counterexample :
    read_flight_nc_1hz ⟨["t"], [⟨"Time", NCData.d1 [0], some "bad units"⟩]⟩ ["Time"]
      = .ok [⟨"Time", [(0 : ℚ)].map Cell.num⟩] ∧
    (readVar1 ⟨["t"], [⟨"Time", NCData.d1 [0], some "bad units"⟩]⟩ "Time").2
      = some PyErr.indexError :=
  ⟨rfl, rfl⟩

/-- C6 amended: every per-variable failure is caught (the reader's result on
the other variables is as if the failing variable were never requested), and
a variable failing before any of its frames is appended — missing name,
absent `units` attribute, unsupported rank — contributes no column at all;
the one exception is a `Time` units-parse failure, which happens after the
raw `Time` frame was appended: raw `Time` survives without `datetime`. -/
theorem C6_amended :
    (∀ (nc : Dataset) (v : String), nc.getVar v = none →
      (readVar25 nc v).1 = [] ∧ (readVar1 nc v).1 = []) ∧
    (∀ (nc : Dataset) (w : NCVar), nc.getVar "Time" = some w → w.units = none →
      (readVar25 nc "Time").1 = [] ∧ (readVar1 nc "Time").1 = []) ∧
    (∀ (nc : Dataset) (v : String) (w : NCVar), v ≠ "Time" → nc.getVar v = some w →
      w.data = .other → (readVar25 nc v).1 = [] ∧ (readVar1 nc v).1 = []) ∧
    (∀ (nc : Dataset) (pre post : List String) (v : String), (readVar25 nc v).1 = [] →
      read_flight_nc_25hz nc (pre ++ v :: post) = read_flight_nc_25hz nc (pre ++ post)) ∧
    (∀ (nc : Dataset) (pre post : List String) (v : String), (readVar1 nc v).1 = [] →
      read_flight_nc_1hz nc (pre ++ v :: post) = read_flight_nc_1hz nc (pre ++ post)) ∧
    (∀ (nc : Dataset) (w : NCVar) (t : List ℚ) (tunits : String) (e : PyErr),
      nc.getVar "Time" = some w → w.units = some tunits → w.data = .d1 t →
      sfm_to_datetime (time25 t) tunits = .error e →
      (readVar25 nc "Time").1 = [⟨"Time", (time25 t).map Cell.num⟩]) := by
  refine ⟨?_, ?_, ?_, ?_, ?_, ?_⟩
  · intro nc v h
    by_cases hv : v = "Time"
    · subst hv
      exact ⟨by simp [readVar25, h], by simp [readVar1, h]⟩
    · exact ⟨by simp [readVar25, hv, h], by simp [readVar1, hv, h]⟩
  · intro nc w hget hunits
    constructor <;> simp [readVar25, readVar1, hget, hunits]
  · intro nc v w hv hget hdata
    constructor <;> simp [readVar25, readVar1, hv, hget, hdata]
  · intro nc pre post v hv
    have hmap : ((pre ++ v :: post).map (fun x => (readVar25 nc x).1)).flatten
        = ((pre ++ post).map (fun x => (readVar25 nc x).1)).flatten := by
      simp [hv]
    unfold read_flight_nc_25hz
    rw [hmap]
  · intro nc pre post v hv
    have hmap : ((pre ++ v :: post).map (fun x => (readVar1 nc x).1)).flatten
        = ((pre ++ post).map (fun x => (readVar1 nc x).1)).flatten := by
      simp [hv]
    unfold read_flight_nc_1hz
    rw [hmap]
  · intro nc w t tunits e hget hunits hdata hsfm
    simp [readVar25, hget, hunits, hdata, hsfm]

/-- Witness for the amended C6 at concrete datasets. -/
theorem C6_witness :
    (readVar25 ⟨[], []⟩ "GGALT").1 = [] ∧
    read_flight_nc_25hz ⟨["sps25"], [⟨"A", NCData.d1 [], none⟩]⟩ (["A"] ++ "B" :: ["A"])
      = read_flight_nc_25hz ⟨["sps25"], [⟨"A", NCData.d1 [], none⟩]⟩ (["A"] ++ ["A"]) ∧
    (readVar25 ⟨["sps25"], [⟨"Time", NCData.d1 [0], some "bad units"⟩]⟩ "Time").1
      = [⟨"Time", (time25 [0]).map Cell.num⟩] :=
  ⟨(C6_amended.1 ⟨[], []⟩ "GGALT" rfl).1,
   C6_amended.2.2.2.1 ⟨["sps25"], [⟨"A", NCData.d1 [], none⟩]⟩ ["A"] ["A"] "B" rfl,
   C6_amended.2.2.2.2.2 ⟨["sps25"], [⟨"Time", NCData.d1 [0], some "bad units"⟩]⟩
     ⟨"Time", NCData.d1 [0], some "bad units"⟩ [0] "bad units" PyErr.indexError
     rfl rfl rfl rfl⟩

/-! ## C7: what escapes the readers -/

theorem flatten_map_eq_nil_iff {α β : Type} (f : α → List β) (l : List α) :
    ((l.map f).flatten = []) ↔ ∀ x ∈ l, f x = [] := by
  rw [List.flatten_eq_nil_iff]
  simp

/-- C7 counterexample: (1) with `Time` present but its units string
unparseable, the 25 Hz reader still returns a table (the parse failure is
swallowed, not propagated as the claim states); (2) with an empty request
list, `pd.concat` on an empty list raises even though the file exists and
no units string was involved — an exception outside the claim's two
permitted cases. -/
theorem C7_counterexample :
    read_flight_nc_25hz ⟨["sps25"], [⟨"Time", NCData.d1 [0], some "garbage"⟩]⟩ ["Time"]
      = .ok [⟨"Time", (time25 [0]).map Cell.num⟩] ∧
    read_flight_nc_25hz ⟨["sps25"], [⟨"A", NCData.d1 [], none⟩]⟩ []
      = .error .concatError :=
  ⟨rfl, rfl⟩

/-- C7 amended: the readers raise only the empty-concat error, and they do
so exactly when every requested variable contributed no column (units-parse
failures are swallowed per-variable; the missing-file error is raised by the
opener/constructor before any reader runs, see C8). -/
theorem C7_amended (nc : Dataset) (rv : List String) :
    ("sps25" ∈ nc.dims →
      (read_flight_nc nc rv = .error .concatError ∨
        ∃ cols, read_flight_nc nc rv = .ok cols ∧ cols ≠ []) ∧
      (read_flight_nc nc rv = .error .concatError ↔
        ∀ v ∈ rv, (readVar25 nc v).1 = [])) ∧
    ("sps25" ∉ nc.dims →
      (read_flight_nc nc rv = .error .concatError ∨
        ∃ cols, read_flight_nc nc rv = .ok cols ∧ cols ≠ []) ∧
      (read_flight_nc nc rv = .error .concatError ↔
        ∀ v ∈ rv, (readVar1 nc v).1 = [])) := by
  constructor
  · intro hd
    have hred : read_flight_nc nc rv = read_flight_nc_25hz nc rv := by
      simp [read_flight_nc, hd]
    rw [hred]
    by_cases h : ((rv.map (fun v => (readVar25 nc v).1)).flatten) = []
    · refine ⟨.inl (by simp [read_flight_nc_25hz, h]), ?_⟩
      rw [iff_true_right ((flatten_map_eq_nil_iff _ rv).mp h)]
      simp [read_flight_nc_25hz, h]
    · refine ⟨.inr ⟨_, by simp [read_flight_nc_25hz, h], h⟩, ?_⟩
      constructor
      · intro habs
        rw [read_flight_nc_25hz, if_neg h] at habs
        exact absurd habs (by simp)
      · intro hall
        exact absurd ((flatten_map_eq_nil_iff _ rv).mpr hall) h
  · intro hd
    have hred : read_flight_nc nc rv = read_flight_nc_1hz nc rv := by
      simp [read_flight_nc, hd]
    rw [hred]
    by_cases h : ((rv.map (fun v => (readVar1 nc v).1)).flatten) = []
    · refine ⟨.inl (by simp [read_flight_nc_1hz, h]), ?_⟩
      rw [iff_true_right ((flatten_map_eq_nil_iff _ rv).mp h)]
      simp [read_flight_nc_1hz, h]
    · refine ⟨.inr ⟨_, by simp [read_flight_nc_1hz, h], h⟩, ?_⟩
      constructor
      · intro habs
        rw [read_flight_nc_1hz, if_neg h] at habs
        exact absurd habs (by simp)
      · intro hall
        exact absurd ((flatten_map_eq_nil_iff _ rv).mpr hall) h

/-- Witness for the amended C7: with an empty request list the 25 Hz path
raises exactly the empty-concat error. -/
theorem C7_witness :
    read_flight_nc ⟨["sps25"], []⟩ [] = .error .concatError :=
  ((C7_amended ⟨["sps25"], []⟩ []).1 (by decide)).2.mpr (by simp)

/-! ## C9: the campaign scanner -/

/-- C9 counterexample: a campaign whose directory is missing does NOT yield
an empty per-file mapping — `os.listdir` raises `FileNotFoundError` and the
whole scan fails. -/
theorem C9_counterexample :
    read_all_flights ⟨fun _ => none, fun _ => none⟩ "data" [] ["c"]
      = .error (.fileNotFound "data/c/lrt") :=
  rfl

/-- C9 amended: a campaign directory that exists but contains zero files
matching `*.nc` yields an empty per-file mapping and the scan continues with
the remaining campaigns; matching files are listed in lexicographically
sorted order; but a campaign whose directory is missing raises the
file-not-found error from the directory listing, aborting the whole scan. -/
theorem C9_amended :
    (∀ (fs : ScanFS) (data_dir campaign : String) (rest : List String)
        (rv : List String) (names : List String),
      fs.dirs (data_dir ++ "/" ++ campaign ++ "/lrt") = some names →
      names.filter matches_nc = [] →
      read_all_flights fs data_dir rv (campaign :: rest)
        = (read_all_flights fs data_dir rv rest).map (fun t => (campaign, []) :: t)) ∧
    (∀ (dirs : DirListing) (p : String) (names : List String),
      dirs p = some names →
      find_flight_fnames dirs p = .ok (List.insertionSort (· ≤ ·) (names.filter matches_nc)) ∧
      List.Sorted (· ≤ ·) (List.insertionSort (· ≤ ·) (names.filter matches_nc))) ∧
    (∀ (fs : ScanFS) (data_dir campaign : String) (rest : List String) (rv : List String),
      fs.dirs (data_dir ++ "/" ++ campaign ++ "/lrt") = none →
      read_all_flights fs data_dir rv (campaign :: rest)
        = .error (.fileNotFound (data_dir ++ "/" ++ campaign ++ "/lrt"))) := by
  refine ⟨?_, ?_, ?_⟩
  · intro fs data_dir campaign rest rv names h1 h2
    simp only [read_all_flights, find_flight_fnames, h1, h2]
    cases hrest : read_all_flights fs data_dir rv rest <;>
      simp [hrest, readFlightDict, Except.map, bind, Except.bind, pure, Except.pure,
        List.insertionSort]
  · intro dirs p names h
    exact ⟨by simp [find_flight_fnames, h], List.sorted_insertionSort _ _⟩
  · intro fs data_dir campaign rest rv h
    simp [read_all_flights, find_flight_fnames, h, bind, Except.bind]

/-- Witness for the amended C9: one campaign with an existing directory that
holds no `*.nc` file, and one concrete listing returned sorted. -/
theorem C9_witness :
    read_all_flights ⟨fun _ => some ["x.txt"], fun _ => none⟩ "data" [] ("c" :: [])
      = (read_all_flights ⟨fun _ => some ["x.txt"], fun _ => none⟩ "data" [] []).map
          (fun t => ("c", []) :: t) ∧
    find_flight_fnames (fun _ => some ["b.nc", "a.nc"]) "p"
      = .ok (List.insertionSort (· ≤ ·) (["b.nc", "a.nc"].filter matches_nc)) ∧
    List.Sorted (· ≤ ·) (List.insertionSort (· ≤ ·) (["b.nc", "a.nc"].filter matches_nc)) :=
  ⟨C9_amended.1 ⟨fun _ => some ["x.txt"], fun _ => none⟩ "data" "c" [] [] ["x.txt"] rfl
     (by decide),
   C9_amended.2.1 (fun _ => some ["b.nc", "a.nc"]) "p" ["b.nc", "a.nc"] rfl⟩

/-! ## C10: columns actually read versus columns requested -/

/-- C10 counterexample: a record built from a file whose `Time` variable
reads successfully stores `read_vars = ["Time", "datetime"]`, which is not a
subset of the requested list `["Time"]` — the derived `datetime` column is
included. -/
theorem C10_counterexample :
    flight_obj_init
        (fun _ => some ⟨["onehz"],
          [⟨"Time", NCData.d1 [0], some "seconds since 2020-01-02 00:00:00 +0000"⟩]⟩)
        "f.nc" ["Time"]
      = .ok ⟨"f.nc", ["Time"],
          ⟨["onehz"],
            [⟨"Time", NCData.d1 [0], some "seconds since 2020-01-02 00:00:00 +0000"⟩]⟩,
          [⟨"Time", [(0 : ℚ)].map Cell.num⟩,
           ⟨"datetime", (([(0 : ℚ)]).map
             (fun s => addSeconds ⟨"2020-01-02".toList, 0⟩ s)).map Cell.dt⟩],
          "1Hz", ["Time", "datetime"]⟩ ∧
    ¬ (["Time", "datetime"] ⊆ ["Time"]) :=
  ⟨rfl, by decide⟩

/-- The per-variable 25 Hz body only ever produces columns named after the
requested variable, plus possibly `datetime`. -/
theorem readVar25_names (nc : Dataset) (v : String) :
    ((readVar25 nc v).1).map Column.name = [] ∨
    ((readVar25 nc v).1).map Column.name = [v] ∨
    ((readVar25 nc v).1).map Column.name = [v, "datetime"] := by
  unfold readVar25
  split
  · split
    · exact .inl rfl
    · split
      · exact .inl rfl
      · split
        · split
          · exact .inr (.inl rfl)
          · exact .inr (.inr rfl)
        · exact .inl rfl
  · split
    · exact .inl rfl
    · split
      · exact .inr (.inl rfl)
      · exact .inr (.inl rfl)
      · exact .inl rfl

/-- The per-variable 1 Hz body only ever produces columns named after the
requested variable, plus possibly `datetime`. -/
theorem readVar1_names (nc : Dataset) (v : String) :
    ((readVar1 nc v).1).map Column.name = [] ∨
    ((readVar1 nc v).1).map Column.name = [v] ∨
    ((readVar1 nc v).1).map Column.name = [v, "datetime"] := by
  unfold readVar1
  split
  · split
    · exact .inl rfl
    · split
      · exact .inl rfl
      · split
        · split
          · exact .inr (.inl rfl)
          · exact .inr (.inr rfl)
        · exact .inl rfl
  · split
    · exact .inl rfl
    · split
      · exact .inr (.inl rfl)
      · exact .inl rfl

theorem reader_columns_subset {nc : Dataset} {rv : List String} {df : List Column}
    (hdf : df = ((rv.map (fun v => (readVar25 nc v).1)).flatten)
      ∨ df = ((rv.map (fun v => (readVar1 nc v).1)).flatten)) :
    df.map Column.name ⊆ rv ++ ["datetime"] := by
  intro c hc
  obtain ⟨col, hcol, rfl⟩ := List.mem_map.mp hc
  have hflat : ∃ v ∈ rv, col ∈ (readVar25 nc v).1 ∨ col ∈ (readVar1 nc v).1 := by
    rcases hdf with rfl | rfl
    · obtain ⟨l, hl, hcl⟩ := List.mem_flatten.mp hcol
      obtain ⟨v, hv, rfl⟩ := List.mem_map.mp hl
      exact ⟨v, hv, .inl hcl⟩
    · obtain ⟨l, hl, hcl⟩ := List.mem_flatten.mp hcol
      obtain ⟨v, hv, rfl⟩ := List.mem_map.mp hl
      exact ⟨v, hv, .inr hcl⟩
  obtain ⟨v, hv, hmem⟩ := hflat
  have hname : col.name = v ∨ col.name = "datetime" := by
    rcases hmem with hmem | hmem
    · have hin : col.name ∈ ((readVar25 nc v).1).map Column.name :=
        List.mem_map_of_mem Column.name hmem
      rcases readVar25_names nc v with h | h | h <;> rw [h] at hin <;> simp at hin <;>
        tauto
    · have hin : col.name ∈ ((readVar1 nc v).1).map Column.name :=
        List.mem_map_of_mem Column.name hmem
      rcases readVar1_names nc v with h | h | h <;> rw [h] at hin <;> simp at hin <;>
        tauto
  rcases hname with h | h
  · exact List.mem_append_left _ (h ▸ hv)
  · rw [h]
    exact List.mem_append_right _ (by simp)

/-- C10 amended: for every successfully constructed flight record, the
stored `read_vars` (the output table's column names) is a subset of the
requested variable list extended with the derived `datetime` column name. -/
theorem C10_read_vars_subset (fs : FileSystem) (p : String) (rv : List String)
    (obj : FlightObj) (h : flight_obj_init fs p rv = .ok obj) :
    obj.read_vars ⊆ rv ++ ["datetime"] := by
  unfold flight_obj_init at h
  split at h
  · simp at h
  · split at h
    · split at h
      · simp at h
      · rename_i nc hfs hdim hscrut df hr
        simp only [Except.ok.injEq] at h
        subst h
        have hdf : df = ((rv.map (fun x => (readVar25 nc x).1)).flatten) := by
          unfold read_flight_nc_25hz at hr
          split at hr
          · simp at hr
          · simp only [Except.ok.injEq] at hr
            exact hr.symm
        exact reader_columns_subset (.inl hdf)
    · split at h
      · simp at h
      · rename_i nc hfs hdim hscrut df hr
        simp only [Except.ok.injEq] at h
        subst h
        have hdf : df = ((rv.map (fun x => (readVar1 nc x).1)).flatten) := by
          unfold read_flight_nc_1hz at hr
          split at hr
          · simp at hr
          · simp only [Except.ok.injEq] at hr
            exact hr.symm
        exact reader_columns_subset (.inr hdf)

/-- Witness for the amended C10 on a concrete record. -/
theorem C10_witness :
    (⟨"f.nc", ["Time"],
        ⟨["onehz"],
          [⟨"Time", NCData.d1 [0], some "seconds since 2020-01-02 00:00:00 +0000"⟩]⟩,
        [⟨"Time", [(0 : ℚ)].map Cell.num⟩,
         ⟨"datetime", (([(0 : ℚ)]).map
           (fun s => addSeconds ⟨"2020-01-02".toList, 0⟩ s)).map Cell.dt⟩],
        "1Hz", ["Time", "datetime"]⟩ : FlightObj).read_vars ⊆ ["Time"] ++ ["datetime"] :=
  C10_read_vars_subset
    (fun _ => some ⟨["onehz"],
      [⟨"Time", NCData.d1 [0], some "seconds since 2020-01-02 00:00:00 +0000"⟩]⟩)
    "f.nc" ["Time"] _ rfl

end FlightUtils
